import Mathlib

/-!
Shallow embedding of the alloy RPC transaction types
(`crates/rpc-types-eth/src/transaction/mod.rs`) and of the lazy provider
call machinery (`crates/provider/src/provider/mod.rs`), together with the
JSON quantity / envelope codec they rely on.

Numeric wire values are modelled as `Nat`; fixed-width hashes, addresses
and byte strings carry explicit bounds in the well-formedness predicates.
JSON documents are modelled by the inductive `Json`; objects keep the key
order the serializer produces, and the decoder looks keys up by name, so
it is insensitive to input key order, mirroring serde.
-/

namespace Alloy

/-- Lower-case hex digit for a value `0 ≤ n < 16`. -/
def hexDigit (n : Nat) : Char :=
  if n < 10 then Char.ofNat (48 + n) else Char.ofNat (87 + n)

/-- Numeric value of a lower-case hex digit character. -/
def hexVal (c : Char) : Option Nat :=
  if 48 ≤ c.toNat ∧ c.toNat ≤ 57 then some (c.toNat - 48)
  else if 97 ≤ c.toNat ∧ c.toNat ≤ 102 then some (c.toNat - 87)
  else none

/-- Fuel-driven digit accumulation; the fuel is a strict upper bound on the
value, so the zero-fuel branch is never reached from `toHex`. -/
def toHexAux : Nat → Nat → List Char
  | 0, _ => []
  | fuel + 1, n =>
    if n < 16 then [hexDigit n] else toHexAux fuel (n / 16) ++ [hexDigit (n % 16)]

/-- Minimal (no leading zero) lower-case hex digits of `n`, most
significant first; `0` renders as the single digit `0`. -/
def toHex (n : Nat) : List Char := toHexAux (n + 1) n

/-- Big-endian accumulation of hex digits; fails on a non-digit. -/
def parseHexDigits (acc : Nat) : List Char → Option Nat
  | [] => some acc
  | c :: cs =>
    match hexVal c with
    | some d => parseHexDigits (acc * 16 + d) cs
    | none => none

/-! ### Quantity codec

Modelled from the spec: the `alloy_serde::quantity` helpers referenced by
the source's serde attributes are not part of the excerpt. Per the spec, a
quantity is an unsigned integer serialized as a minimal lower-case hex
string: `0x` prefix, no leading zero digits, zero rendered as `"0x0"`;
decoding rejects a missing prefix and non-minimal digit strings. -/

/-- Canonical minimal-hex encoding of a quantity. -/
def encodeQuantity (n : Nat) : String :=
  String.mk ('0' :: 'x' :: toHex n)

/-- Strict quantity decoding over the character list of the input: requires
the `0x` prefix, at least one digit, and no leading zero except for the
single digit string `0`. -/
def decodeQuantityChars : List Char → Option Nat
  | '0' :: 'x' :: c :: cs =>
    if c = '0' then (if cs = [] then some 0 else none)
    else parseHexDigits 0 (c :: cs)
  | _ => none

/-- Strict quantity decoding of a string. -/
def decodeQuantity (s : String) : Option Nat :=
  decodeQuantityChars s.data

/-! ### Fixed-width hex codec (addresses: 40 digits, 256-bit hashes: 64). -/

/-- `n` rendered as exactly `w` lower-case hex digits, zero padded. -/
def padHex (w n : Nat) : List Char :=
  List.replicate (w - (toHex n).length) '0' ++ toHex n

/-- Fixed-width hex string with the `0x` prefix. -/
def encodeFixed (w n : Nat) : String :=
  String.mk ('0' :: 'x' :: padHex w n)

/-- Strict fixed-width decoding: `0x` prefix then exactly `w` hex digits. -/
def decodeFixedChars (w : Nat) : List Char → Option Nat
  | '0' :: 'x' :: rest =>
    if rest.length = w then parseHexDigits 0 rest else none
  | _ => none

/-- Strict fixed-width decoding of a string. -/
def decodeFixed (w : Nat) (s : String) : Option Nat :=
  decodeFixedChars w s.data

/-! ### Byte-string codec (`input` data: `0x` then two hex digits per byte). -/

/-- Two-digit hex rendering of each byte, concatenated. -/
def bytesToHex : List Nat → List Char
  | [] => []
  | b :: bs => hexDigit (b / 16) :: hexDigit (b % 16) :: bytesToHex bs

/-- Byte-string decoding: pairs of hex digits. -/
def parseBytes : List Char → Option (List Nat)
  | [] => some []
  | [_] => none
  | c1 :: c2 :: cs =>
    match hexVal c1, hexVal c2, parseBytes cs with
    | some d1, some d2, some rest => some ((d1 * 16 + d2) :: rest)
    | _, _, _ => none

/-- Byte strings carry the `0x` prefix on the wire. -/
def encodeBytes (l : List Nat) : String :=
  String.mk ('0' :: 'x' :: bytesToHex l)

/-- Strict byte-string decoding of a string. -/
def decodeBytesChars : List Char → Option (List Nat)
  | '0' :: 'x' :: rest => parseBytes rest
  | _ => none

/-! ### JSON documents

Objects are ordered key/value lists, mirroring the order the serializer
writes; the decoder looks keys up by name and so accepts any order. -/

inductive Json where
  | null : Json
  | str : String → Json
  | num : Nat → Json
  | arr : List Json → Json
  | obj : List (String × Json) → Json

mutual

/-- Compact rendering, matching `serde_json::to_string`: no whitespace,
keys and strings double-quoted. -/
def Json.render : Json → String
  | .null => "null"
  | .str s => "\"" ++ s ++ "\""
  | .num n => Nat.repr n
  | .arr xs => "[" ++ Json.renderItems xs ++ "]"
  | .obj kvs => "\x7b" ++ Json.renderFields kvs ++ "\x7d"

/-- Comma-separated rendering of array elements. -/
def Json.renderItems : List Json → String
  | [] => ""
  | [x] => x.render
  | x :: y :: xs => x.render ++ "," ++ Json.renderItems (y :: xs)

/-- Comma-separated rendering of object fields. -/
def Json.renderFields : List (String × Json) → String
  | [] => ""
  | [(k, v)] => "\"" ++ k ++ "\":" ++ v.render
  | (k, v) :: y :: xs => "\"" ++ k ++ "\":" ++ v.render ++ "," ++ Json.renderFields (y :: xs)

end

/-- First value bound to a key in an object's field list. -/
def lookupKV (k : String) : List (String × Json) → Option Json
  | [] => none
  | (k', v) :: rest => if k = k' then some v else lookupKV k rest

/-! ### Consensus data model

Translated from the `alloy_consensus` / `alloy_primitives` types the
source file manipulates (`TxEnvelope`, `Signed`, `Signature`, `Parity`,
the five transaction variants, access lists and authorizations), with
`Nat` for machine integers, addresses and hashes, and `List Nat` for byte
strings. -/

/-- Recovery identifier of a signature: a full EIP-155 `v` value, a
pre-EIP-155 27/28 boolean, or a bare parity bit. -/
inductive Parity where
  | eip155 (v : Nat)
  | nonEip155 (b : Bool)
  | parity (b : Bool)
deriving DecidableEq, Repr

/-- An ECDSA signature with its recovery identifier. -/
structure Signature where
  r : Nat
  s : Nat
  parity : Parity
deriving DecidableEq, Repr

/-- A transaction recipient: a call to an address or a create. -/
inductive TxKind where
  | create
  | call (address : Nat)
deriving DecidableEq, Repr

/-- One access-list entry. -/
structure AccessListItem where
  address : Nat
  storage_keys : List Nat
deriving DecidableEq, Repr

/-- An EIP-7702 authorization (unsigned part). -/
structure Authorization where
  chain_id : Nat
  address : Nat
  nonce : Nat
deriving DecidableEq, Repr

/-- A signed EIP-7702 authorization item. -/
structure SignedAuthorization where
  inner : Authorization
  signature : Signature
deriving DecidableEq, Repr

/-- Legacy transaction payload. -/
structure TxLegacy where
  chain_id : Option Nat
  nonce : Nat
  gas_price : Nat
  gas_limit : Nat
  to_ : TxKind
  value : Nat
  input : List Nat
deriving DecidableEq, Repr

/-- EIP-2930 access-list transaction payload. -/
structure TxEip2930 where
  chain_id : Nat
  nonce : Nat
  gas_price : Nat
  gas_limit : Nat
  to_ : TxKind
  value : Nat
  access_list : List AccessListItem
  input : List Nat
deriving DecidableEq, Repr

/-- EIP-1559 fee-market transaction payload. -/
structure TxEip1559 where
  chain_id : Nat
  nonce : Nat
  gas_limit : Nat
  max_fee_per_gas : Nat
  max_priority_fee_per_gas : Nat
  to_ : TxKind
  value : Nat
  access_list : List AccessListItem
  input : List Nat
deriving DecidableEq, Repr

/-- EIP-4844 blob transaction payload; the recipient is always a call. -/
structure TxEip4844 where
  chain_id : Nat
  nonce : Nat
  gas_limit : Nat
  max_fee_per_gas : Nat
  max_priority_fee_per_gas : Nat
  to_ : Nat
  value : Nat
  access_list : List AccessListItem
  blob_versioned_hashes : List Nat
  max_fee_per_blob_gas : Nat
  input : List Nat
deriving DecidableEq, Repr

/-- EIP-7702 authorization-list transaction payload. -/
structure TxEip7702 where
  chain_id : Nat
  nonce : Nat
  gas_limit : Nat
  max_fee_per_gas : Nat
  max_priority_fee_per_gas : Nat
  to_ : TxKind
  value : Nat
  access_list : List AccessListItem
  authorization_list : List SignedAuthorization
  input : List Nat
deriving DecidableEq, Repr

/-- A signed transaction with its memoized hash. -/
structure Signed (τ : Type) where
  tx : τ
  signature : Signature
  hash : Nat
deriving DecidableEq, Repr

/-- The closed envelope union, tagged on the wire by the `type` quantity. -/
inductive TxEnvelope where
  | legacy (s : Signed TxLegacy)
  | eip2930 (s : Signed TxEip2930)
  | eip1559 (s : Signed TxEip1559)
  | eip4844 (s : Signed TxEip4844)
  | eip7702 (s : Signed TxEip7702)
deriving DecidableEq, Repr

/-- RPC transaction record: the envelope plus response-only metadata
(`crates/rpc-types-eth/src/transaction/mod.rs`, struct `Transaction`).
`from` is a Lean keyword, hence the field is spelled `from_`. -/
structure Transaction where
  tx : TxEnvelope
  block_hash : Option Nat
  block_number : Option Nat
  transaction_index : Option Nat
  from_ : Nat
deriving DecidableEq, Repr

/-! ### Serializer

Modelled from the spec and from the literal JSON fixtures asserted by the
source's tests `serde_transaction`, `serde_transaction_with_parity_bit`
and `serde_minimal_transaction`: camel-case keys, quantities in minimal
hex, fixed-width hex for hashes/addresses, `chainId` and `to` omitted when
absent, block metadata serialized as explicit `null` when pending, and the
signature emitting `v` for legacy-style recovery values and `yParity`
(as a `"0x0"`/`"0x1"` quantity) for a bare parity bit. -/

/-- A quantity value. -/
def qtyJson (n : Nat) : Json := .str (encodeQuantity n)

/-- A 20-byte address value. -/
def addrJson (a : Nat) : Json := .str (encodeFixed 40 a)

/-- A 32-byte hash value. -/
def b256Json (h : Nat) : Json := .str (encodeFixed 64 h)

/-- A byte-string value. -/
def bytesJson (l : List Nat) : Json := .str (encodeBytes l)

/-- The numeric `v` value carried by a recovery identifier. -/
def parityVNum : Parity → Nat
  | .eip155 v => v
  | .nonEip155 b => if b then 28 else 27
  | .parity b => if b then 1 else 0

/-- Signature wire fields: `r`, `s`, then `v` for legacy-style recovery
values and `yParity` for a bare parity bit. -/
def sigFields (sig : Signature) : List (String × Json) :=
  [("r", qtyJson sig.r), ("s", qtyJson sig.s)] ++
  (match sig.parity with
   | .parity b => [("yParity", qtyJson (if b then 1 else 0))]
   | p => [("v", qtyJson (parityVNum p))])

/-- An optional quantity field that is omitted when absent. -/
def optQtyField (k : String) : Option Nat → List (String × Json)
  | none => []
  | some v => [(k, qtyJson v)]

/-- The `to` field: omitted for a create, an address for a call. -/
def toKindFields : TxKind → List (String × Json)
  | .create => []
  | .call a => [("to", addrJson a)]

/-- One serialized access-list entry. -/
def encodeAccessItem (i : AccessListItem) : Json :=
  .obj [("address", addrJson i.address),
        ("storageKeys", .arr (i.storage_keys.map b256Json))]

/-- One serialized authorization-list entry; its own `v` is a bare JSON
number, as in the source's test fixture. -/
def encodeAuth (a : SignedAuthorization) : Json :=
  .obj [("chainId", qtyJson a.inner.chain_id),
        ("address", addrJson a.inner.address),
        ("nonce", qtyJson a.inner.nonce),
        ("r", qtyJson a.signature.r),
        ("s", qtyJson a.signature.s),
        ("v", .num (parityVNum a.signature.parity))]

/-- Wire fields of an envelope, in serializer order, tag first. -/
def envelopeFields : TxEnvelope → List (String × Json)
  | .legacy s =>
    ("type", qtyJson 0) :: optQtyField "chainId" s.tx.chain_id ++
    [("nonce", qtyJson s.tx.nonce), ("gasPrice", qtyJson s.tx.gas_price),
     ("gas", qtyJson s.tx.gas_limit)] ++
    toKindFields s.tx.to_ ++
    [("value", qtyJson s.tx.value), ("input", bytesJson s.tx.input)] ++
    sigFields s.signature ++ [("hash", b256Json s.hash)]
  | .eip2930 s =>
    [("type", qtyJson 1), ("chainId", qtyJson s.tx.chain_id),
     ("nonce", qtyJson s.tx.nonce), ("gasPrice", qtyJson s.tx.gas_price),
     ("gas", qtyJson s.tx.gas_limit)] ++
    toKindFields s.tx.to_ ++
    [("value", qtyJson s.tx.value),
     ("accessList", .arr (s.tx.access_list.map encodeAccessItem)),
     ("input", bytesJson s.tx.input)] ++
    sigFields s.signature ++ [("hash", b256Json s.hash)]
  | .eip1559 s =>
    [("type", qtyJson 2), ("chainId", qtyJson s.tx.chain_id),
     ("nonce", qtyJson s.tx.nonce), ("gas", qtyJson s.tx.gas_limit),
     ("maxFeePerGas", qtyJson s.tx.max_fee_per_gas),
     ("maxPriorityFeePerGas", qtyJson s.tx.max_priority_fee_per_gas)] ++
    toKindFields s.tx.to_ ++
    [("value", qtyJson s.tx.value),
     ("accessList", .arr (s.tx.access_list.map encodeAccessItem)),
     ("input", bytesJson s.tx.input)] ++
    sigFields s.signature ++ [("hash", b256Json s.hash)]
  | .eip4844 s =>
    [("type", qtyJson 3), ("chainId", qtyJson s.tx.chain_id),
     ("nonce", qtyJson s.tx.nonce), ("gas", qtyJson s.tx.gas_limit),
     ("maxFeePerGas", qtyJson s.tx.max_fee_per_gas),
     ("maxPriorityFeePerGas", qtyJson s.tx.max_priority_fee_per_gas),
     ("to", addrJson s.tx.to_), ("value", qtyJson s.tx.value),
     ("accessList", .arr (s.tx.access_list.map encodeAccessItem)),
     ("blobVersionedHashes", .arr (s.tx.blob_versioned_hashes.map b256Json)),
     ("maxFeePerBlobGas", qtyJson s.tx.max_fee_per_blob_gas),
     ("input", bytesJson s.tx.input)] ++
    sigFields s.signature ++ [("hash", b256Json s.hash)]
  | .eip7702 s =>
    [("type", qtyJson 4), ("chainId", qtyJson s.tx.chain_id),
     ("nonce", qtyJson s.tx.nonce), ("gas", qtyJson s.tx.gas_limit),
     ("maxFeePerGas", qtyJson s.tx.max_fee_per_gas),
     ("maxPriorityFeePerGas", qtyJson s.tx.max_priority_fee_per_gas)] ++
    toKindFields s.tx.to_ ++
    [("value", qtyJson s.tx.value),
     ("accessList", .arr (s.tx.access_list.map encodeAccessItem)),
     ("authorizationList", .arr (s.tx.authorization_list.map encodeAuth)),
     ("input", bytesJson s.tx.input)] ++
    sigFields s.signature ++ [("hash", b256Json s.hash)]

/-- An optional field serialized as explicit `null` when absent. -/
def optNull (f : Nat → Json) : Option Nat → Json
  | none => .null
  | some v => f v

/-- Serialization of the RPC `Transaction` record: the flattened envelope
fields followed by the metadata fields, block metadata as explicit
`null` when pending (the struct's serde derive has no skip on them). -/
def encodeTransaction (t : Transaction) : Json :=
  .obj (envelopeFields t.tx ++
    [("blockHash", optNull b256Json t.block_hash),
     ("blockNumber", optNull qtyJson t.block_number),
     ("transactionIndex", optNull qtyJson t.transaction_index),
     ("from", addrJson t.from_)])

/-! ### Source operations on `Transaction` -/

/-- `Transaction::is_legacy_gas` (mod.rs lines 56-59): true exactly on the
`Legacy` and `Eip2930` envelope variants. -/
def Transaction.is_legacy_gas (t : Transaction) : Bool :=
  match t.tx with
  | .legacy _ => true
  | .eip2930 _ => true
  | _ => false

/-- Envelope accessors used by the `TransactionResponse` impl
(mod.rs lines 76-100), delegating to the consensus payload. -/
def TxEnvelope.nonce : TxEnvelope → Nat
  | .legacy s => s.tx.nonce
  | .eip2930 s => s.tx.nonce
  | .eip1559 s => s.tx.nonce
  | .eip4844 s => s.tx.nonce
  | .eip7702 s => s.tx.nonce

/-- Gas limit of the envelope payload. -/
def TxEnvelope.gas_limit : TxEnvelope → Nat
  | .legacy s => s.tx.gas_limit
  | .eip2930 s => s.tx.gas_limit
  | .eip1559 s => s.tx.gas_limit
  | .eip4844 s => s.tx.gas_limit
  | .eip7702 s => s.tx.gas_limit

/-- Value of the envelope payload. -/
def TxEnvelope.value : TxEnvelope → Nat
  | .legacy s => s.tx.value
  | .eip2930 s => s.tx.value
  | .eip1559 s => s.tx.value
  | .eip4844 s => s.tx.value
  | .eip7702 s => s.tx.value

/-- Input data of the envelope payload. -/
def TxEnvelope.input : TxEnvelope → List Nat
  | .legacy s => s.tx.input
  | .eip2930 s => s.tx.input
  | .eip1559 s => s.tx.input
  | .eip4844 s => s.tx.input
  | .eip7702 s => s.tx.input

/-- Recipient of the envelope payload (4844 is always a call). -/
def TxEnvelope.to_ : TxEnvelope → TxKind
  | .legacy s => s.tx.to_
  | .eip2930 s => s.tx.to_
  | .eip1559 s => s.tx.to_
  | .eip4844 s => .call s.tx.to_
  | .eip7702 s => s.tx.to_

/-- Memoized hash of the signed envelope. -/
def TxEnvelope.tx_hash : TxEnvelope → Nat
  | .legacy s => s.hash
  | .eip2930 s => s.hash
  | .eip1559 s => s.hash
  | .eip4844 s => s.hash
  | .eip7702 s => s.hash

/-- Blob sidecar payload; never reconstructible from an RPC response. -/
structure BlobTransactionSidecar where
  blobs : List (List Nat)
deriving DecidableEq, Repr

/-- Builder form of a transaction: every field optional
(`request.rs`, re-exported by the source file). -/
structure TransactionRequest where
  from_ : Option Nat
  to_ : Option TxKind
  gas_price : Option Nat
  max_fee_per_gas : Option Nat
  max_priority_fee_per_gas : Option Nat
  max_fee_per_blob_gas : Option Nat
  gas : Option Nat
  value : Option Nat
  input : Option (List Nat)
  nonce : Option Nat
  chain_id : Option Nat
  access_list : Option (List AccessListItem)
  transaction_type : Option Nat
  blob_versioned_hashes : Option (List Nat)
  sidecar : Option BlobTransactionSidecar
  authorization_list : Option (List SignedAuthorization)
deriving DecidableEq, Repr

/-- Modelled from the spec: the `From<TxEnvelope> for TransactionRequest`
conversion lives in `request.rs`, which is not part of the excerpt. Per
the spec, each variant maps into the corresponding subset of builder
fields; Legacy/Eip2930 populate `gas_price`, the fee-market-or-later
variants populate the max-fee pair, and the sidecar is never populated. -/
def txEnvelopeToRequest : TxEnvelope → TransactionRequest
  | .legacy s =>
    { from_ := none, to_ := some s.tx.to_, gas_price := some s.tx.gas_price,
      max_fee_per_gas := none, max_priority_fee_per_gas := none,
      max_fee_per_blob_gas := none, gas := some s.tx.gas_limit,
      value := some s.tx.value, input := some s.tx.input,
      nonce := some s.tx.nonce, chain_id := s.tx.chain_id,
      access_list := none, transaction_type := some 0,
      blob_versioned_hashes := none, sidecar := none,
      authorization_list := none }
  | .eip2930 s =>
    { from_ := none, to_ := some s.tx.to_, gas_price := some s.tx.gas_price,
      max_fee_per_gas := none, max_priority_fee_per_gas := none,
      max_fee_per_blob_gas := none, gas := some s.tx.gas_limit,
      value := some s.tx.value, input := some s.tx.input,
      nonce := some s.tx.nonce, chain_id := some s.tx.chain_id,
      access_list := some s.tx.access_list, transaction_type := some 1,
      blob_versioned_hashes := none, sidecar := none,
      authorization_list := none }
  | .eip1559 s =>
    { from_ := none, to_ := some s.tx.to_, gas_price := none,
      max_fee_per_gas := some s.tx.max_fee_per_gas,
      max_priority_fee_per_gas := some s.tx.max_priority_fee_per_gas,
      max_fee_per_blob_gas := none, gas := some s.tx.gas_limit,
      value := some s.tx.value, input := some s.tx.input,
      nonce := some s.tx.nonce, chain_id := some s.tx.chain_id,
      access_list := some s.tx.access_list, transaction_type := some 2,
      blob_versioned_hashes := none, sidecar := none,
      authorization_list := none }
  | .eip4844 s =>
    { from_ := none, to_ := some (.call s.tx.to_), gas_price := none,
      max_fee_per_gas := some s.tx.max_fee_per_gas,
      max_priority_fee_per_gas := some s.tx.max_priority_fee_per_gas,
      max_fee_per_blob_gas := some s.tx.max_fee_per_blob_gas,
      gas := some s.tx.gas_limit, value := some s.tx.value,
      input := some s.tx.input, nonce := some s.tx.nonce,
      chain_id := some s.tx.chain_id, access_list := some s.tx.access_list,
      transaction_type := some 3,
      blob_versioned_hashes := some s.tx.blob_versioned_hashes,
      sidecar := none, authorization_list := none }
  | .eip7702 s =>
    { from_ := none, to_ := some s.tx.to_, gas_price := none,
      max_fee_per_gas := some s.tx.max_fee_per_gas,
      max_priority_fee_per_gas := some s.tx.max_priority_fee_per_gas,
      max_fee_per_blob_gas := none, gas := some s.tx.gas_limit,
      value := some s.tx.value, input := some s.tx.input,
      nonce := some s.tx.nonce, chain_id := some s.tx.chain_id,
      access_list := some s.tx.access_list, transaction_type := some 4,
      blob_versioned_hashes := none, sidecar := none,
      authorization_list := some s.tx.authorization_list }

/-- `Transaction::into_request` (mod.rs lines 61-68): `self.tx.into()`. -/
def Transaction.into_request (t : Transaction) : TransactionRequest :=
  txEnvelopeToRequest t.tx

/-- `impl From<Transaction> for TxEnvelope` (mod.rs lines 70-74). -/
def txEnvelopeOfTransaction (t : Transaction) : TxEnvelope :=
  t.tx

/-! ### Deserializer

Modelled from the spec and the serde attributes in the source: keys are
looked up by name (order-insensitive); quantities are decoded strictly;
the three block-metadata fields have serde `default`, so a missing or
`null` key decodes to `None`; `from` has no default and is required;
`chainId`/`to` may be absent; the signature accepts either `yParity` (a
`"0x0"`/`"0x1"` quantity) or a `v` quantity; an unknown `type` tag fails. -/

/-- Decode a quantity-valued JSON field. -/
def decodeQtyJson : Json → Option Nat
  | .str s => decodeQuantity s
  | _ => none

/-- Decode an address-valued JSON field. -/
def decodeAddrJson : Json → Option Nat
  | .str s => decodeFixed 40 s
  | _ => none

/-- Decode a 32-byte-hash-valued JSON field. -/
def decodeB256Json : Json → Option Nat
  | .str s => decodeFixed 64 s
  | _ => none

/-- Decode a byte-string-valued JSON field. -/
def decodeBytesJson : Json → Option (List Nat)
  | .str s => decodeBytesChars s.data
  | _ => none

/-- Classify a numeric `v` value: `0`/`1` parity bit, `27`/`28`
pre-EIP-155, at least `35` EIP-155; anything else is malformed. -/
def decodeParityV (v : Nat) : Option Parity :=
  if v = 0 then some (.parity false)
  else if v = 1 then some (.parity true)
  else if v = 27 then some (.nonEip155 false)
  else if v = 28 then some (.nonEip155 true)
  else if 35 ≤ v then some (.eip155 v)
  else none

/-- A required quantity field. -/
def reqQty (k : String) (kvs : List (String × Json)) : Option Nat :=
  (lookupKV k kvs).bind decodeQtyJson

/-- Value of an optional quantity field: missing or `null` is `None`. -/
def optValQty : Option Json → Option (Option Nat)
  | none => some none
  | some .null => some none
  | some j => (decodeQtyJson j).map some

/-- An optional quantity field: missing or `null` is `None`. -/
def optQtyKV (k : String) (kvs : List (String × Json)) : Option (Option Nat) :=
  optValQty (lookupKV k kvs)

/-- Value of an optional hash field: missing or `null` is `None`. -/
def optValB256 : Option Json → Option (Option Nat)
  | none => some none
  | some .null => some none
  | some j => (decodeB256Json j).map some

/-- An optional hash field: missing or `null` is `None`. -/
def optB256KV (k : String) (kvs : List (String × Json)) : Option (Option Nat) :=
  optValB256 (lookupKV k kvs)

/-- Value of the `to` field: missing or `null` is a create. -/
def decodeToKindVal : Option Json → Option TxKind
  | none => some .create
  | some .null => some .create
  | some j => (decodeAddrJson j).map .call

/-- The `to` field: missing or `null` is a create. -/
def decodeToKindKV (kvs : List (String × Json)) : Option TxKind :=
  decodeToKindVal (lookupKV "to" kvs)

/-- The signature fields, read off the flattened object. -/
def decodeSigKV (kvs : List (String × Json)) : Option Signature := do
  let rv ← reqQty "r" kvs
  let sv ← reqQty "s" kvs
  match lookupKV "yParity" kvs with
  | some j => do
    let y ← decodeQtyJson j
    if y = 0 then pure ⟨rv, sv, .parity false⟩
    else if y = 1 then pure ⟨rv, sv, .parity true⟩
    else none
  | none => do
    let v ← reqQty "v" kvs
    let p ← decodeParityV v
    pure ⟨rv, sv, p⟩

/-- Decode every element of a JSON array. -/
def mapMOption {α : Type} (f : Json → Option α) : List Json → Option (List α)
  | [] => some []
  | x :: xs => do
    let a ← f x
    let r ← mapMOption f xs
    pure (a :: r)

/-- Decode an array of 32-byte hashes. -/
def decodeB256Array : Json → Option (List Nat)
  | .arr xs => mapMOption decodeB256Json xs
  | _ => none

/-- Decode one access-list entry. -/
def decodeAccessItemJson : Json → Option AccessListItem
  | .obj kvs => do
    let a ← (lookupKV "address" kvs).bind decodeAddrJson
    let ks ← (lookupKV "storageKeys" kvs).bind decodeB256Array
    pure ⟨a, ks⟩
  | _ => none

/-- Decode the access list. -/
def decodeAccessListJson : Json → Option (List AccessListItem)
  | .arr xs => mapMOption decodeAccessItemJson xs
  | _ => none

/-- Decode one authorization entry; its `v` is a bare JSON number. -/
def decodeAuthJson : Json → Option SignedAuthorization
  | .obj kvs => do
    let c ← reqQty "chainId" kvs
    let a ← (lookupKV "address" kvs).bind decodeAddrJson
    let n ← reqQty "nonce" kvs
    let rv ← reqQty "r" kvs
    let sv ← reqQty "s" kvs
    let v ← match lookupKV "v" kvs with
            | some (.num n') => some n'
            | _ => none
    let p ← decodeParityV v
    pure ⟨⟨c, a, n⟩, ⟨rv, sv, p⟩⟩
  | _ => none

/-- Decode the authorization list. -/
def decodeAuthListJson : Json → Option (List SignedAuthorization)
  | .arr xs => mapMOption decodeAuthJson xs
  | _ => none

/-- Decode a legacy payload off the flattened object. -/
def decodeLegacy (kvs : List (String × Json)) : Option TxEnvelope := do
  let chain_id ← optQtyKV "chainId" kvs
  let nonce ← reqQty "nonce" kvs
  let gas_price ← reqQty "gasPrice" kvs
  let gas_limit ← reqQty "gas" kvs
  let tok ← decodeToKindKV kvs
  let value ← reqQty "value" kvs
  let input ← (lookupKV "input" kvs).bind decodeBytesJson
  let sig ← decodeSigKV kvs
  let hash ← (lookupKV "hash" kvs).bind decodeB256Json
  pure (.legacy ⟨⟨chain_id, nonce, gas_price, gas_limit, tok, value, input⟩, sig, hash⟩)

/-- Decode an EIP-2930 payload off the flattened object. -/
def decodeEip2930 (kvs : List (String × Json)) : Option TxEnvelope := do
  let chain_id ← reqQty "chainId" kvs
  let nonce ← reqQty "nonce" kvs
  let gas_price ← reqQty "gasPrice" kvs
  let gas_limit ← reqQty "gas" kvs
  let tok ← decodeToKindKV kvs
  let value ← reqQty "value" kvs
  let access_list ← (lookupKV "accessList" kvs).bind decodeAccessListJson
  let input ← (lookupKV "input" kvs).bind decodeBytesJson
  let sig ← decodeSigKV kvs
  let hash ← (lookupKV "hash" kvs).bind decodeB256Json
  pure (.eip2930 ⟨⟨chain_id, nonce, gas_price, gas_limit, tok, value, access_list, input⟩, sig, hash⟩)

/-- Decode an EIP-1559 payload off the flattened object. -/
def decodeEip1559 (kvs : List (String × Json)) : Option TxEnvelope := do
  let chain_id ← reqQty "chainId" kvs
  let nonce ← reqQty "nonce" kvs
  let gas_limit ← reqQty "gas" kvs
  let max_fee ← reqQty "maxFeePerGas" kvs
  let max_prio ← reqQty "maxPriorityFeePerGas" kvs
  let tok ← decodeToKindKV kvs
  let value ← reqQty "value" kvs
  let access_list ← (lookupKV "accessList" kvs).bind decodeAccessListJson
  let input ← (lookupKV "input" kvs).bind decodeBytesJson
  let sig ← decodeSigKV kvs
  let hash ← (lookupKV "hash" kvs).bind decodeB256Json
  pure (.eip1559 ⟨⟨chain_id, nonce, gas_limit, max_fee, max_prio, tok, value, access_list, input⟩, sig, hash⟩)

/-- Decode an EIP-4844 payload off the flattened object. -/
def decodeEip4844 (kvs : List (String × Json)) : Option TxEnvelope := do
  let chain_id ← reqQty "chainId" kvs
  let nonce ← reqQty "nonce" kvs
  let gas_limit ← reqQty "gas" kvs
  let max_fee ← reqQty "maxFeePerGas" kvs
  let max_prio ← reqQty "maxPriorityFeePerGas" kvs
  let tok ← (lookupKV "to" kvs).bind decodeAddrJson
  let value ← reqQty "value" kvs
  let access_list ← (lookupKV "accessList" kvs).bind decodeAccessListJson
  let blob_hashes ← (lookupKV "blobVersionedHashes" kvs).bind decodeB256Array
  let max_blob_fee ← reqQty "maxFeePerBlobGas" kvs
  let input ← (lookupKV "input" kvs).bind decodeBytesJson
  let sig ← decodeSigKV kvs
  let hash ← (lookupKV "hash" kvs).bind decodeB256Json
  pure (.eip4844 ⟨⟨chain_id, nonce, gas_limit, max_fee, max_prio, tok, value, access_list,
    blob_hashes, max_blob_fee, input⟩, sig, hash⟩)

/-- Decode an EIP-7702 payload off the flattened object. -/
def decodeEip7702 (kvs : List (String × Json)) : Option TxEnvelope := do
  let chain_id ← reqQty "chainId" kvs
  let nonce ← reqQty "nonce" kvs
  let gas_limit ← reqQty "gas" kvs
  let max_fee ← reqQty "maxFeePerGas" kvs
  let max_prio ← reqQty "maxPriorityFeePerGas" kvs
  let tok ← decodeToKindKV kvs
  let value ← reqQty "value" kvs
  let access_list ← (lookupKV "accessList" kvs).bind decodeAccessListJson
  let auth_list ← (lookupKV "authorizationList" kvs).bind decodeAuthListJson
  let input ← (lookupKV "input" kvs).bind decodeBytesJson
  let sig ← decodeSigKV kvs
  let hash ← (lookupKV "hash" kvs).bind decodeB256Json
  pure (.eip7702 ⟨⟨chain_id, nonce, gas_limit, max_fee, max_prio, tok, value, access_list,
    auth_list, input⟩, sig, hash⟩)

/-- Decode the envelope union, dispatching on the `type` tag; an unknown
tag fails. -/
def decodeEnvelope (kvs : List (String × Json)) : Option TxEnvelope := do
  let ty ← reqQty "type" kvs
  match ty with
  | 0 => decodeLegacy kvs
  | 1 => decodeEip2930 kvs
  | 2 => decodeEip1559 kvs
  | 3 => decodeEip4844 kvs
  | 4 => decodeEip7702 kvs
  | _ => none

/-- Decode the RPC `Transaction` record: the flattened envelope, the
defaulted block-metadata fields, and the required `from` field. -/
def decodeTransaction : Json → Option Transaction
  | .obj kvs => do
    let env ← decodeEnvelope kvs
    let bh ← optB256KV "blockHash" kvs
    let bn ← optQtyKV "blockNumber" kvs
    let ti ← optQtyKV "transactionIndex" kvs
    let fr ← (lookupKV "from" kvs).bind decodeAddrJson
    pure ⟨env, bh, bn, ti, fr⟩
  | _ => none

/-! ### Well-formedness

The Rust types carry invariants the `Nat`-based embedding cannot express
structurally: addresses fit 20 bytes, hashes 32 bytes, input bytes are
bytes, and a recovery identifier stored as a full EIP-155 `v` value is at
least 35 (as `Signature::from_rs_and_parity` guarantees). -/

/-- An address fits in 40 hex digits. -/
def AddrWF (a : Nat) : Prop := a < 16 ^ 40

/-- A hash or storage key fits in 64 hex digits. -/
def B256WF (h : Nat) : Prop := h < 16 ^ 64

/-- Every entry of a byte string is a byte. -/
def BytesWF (l : List Nat) : Prop := ∀ b ∈ l, b < 256

/-- An EIP-155 `v` value is at least 35; the other forms carry a bit. -/
def Parity.WF : Parity → Prop
  | .eip155 v => 35 ≤ v
  | .nonEip155 _ => True
  | .parity _ => True

instance (p : Parity) : Decidable p.WF := by
  cases p with
  | eip155 v => exact inferInstanceAs (Decidable (35 ≤ v))
  | nonEip155 b => exact .isTrue trivial
  | parity b => exact .isTrue trivial

/-- Signature well-formedness. -/
def Signature.WF (s : Signature) : Prop := s.parity.WF

instance (s : Signature) : Decidable s.WF :=
  inferInstanceAs (Decidable s.parity.WF)

instance (a : Nat) : Decidable (AddrWF a) := inferInstanceAs (Decidable (a < 16 ^ 40))

instance (h : Nat) : Decidable (B256WF h) := inferInstanceAs (Decidable (h < 16 ^ 64))

instance (l : List Nat) : Decidable (BytesWF l) :=
  inferInstanceAs (Decidable (∀ b ∈ l, b < 256))

/-- Recipient well-formedness. -/
def TxKind.WF : TxKind → Prop
  | .create => True
  | .call a => AddrWF a

instance (k : TxKind) : Decidable k.WF := by
  cases k with
  | create => exact .isTrue trivial
  | call a => exact inferInstanceAs (Decidable (AddrWF a))

/-- Access-list entry well-formedness. -/
def AccessListItem.WF (i : AccessListItem) : Prop :=
  AddrWF i.address ∧ ∀ k ∈ i.storage_keys, B256WF k

instance (i : AccessListItem) : Decidable i.WF :=
  inferInstanceAs (Decidable (_ ∧ _))

/-- Authorization entry well-formedness. -/
def SignedAuthorization.WF (a : SignedAuthorization) : Prop :=
  AddrWF a.inner.address ∧ a.signature.WF

instance (a : SignedAuthorization) : Decidable a.WF :=
  inferInstanceAs (Decidable (_ ∧ _))

/-- Payload well-formedness, per variant. -/
def TxLegacy.WF (t : TxLegacy) : Prop := t.to_.WF ∧ BytesWF t.input

instance (t : TxLegacy) : Decidable t.WF := inferInstanceAs (Decidable (_ ∧ _))

/-- EIP-2930 payload well-formedness. -/
def TxEip2930.WF (t : TxEip2930) : Prop :=
  t.to_.WF ∧ BytesWF t.input ∧ ∀ i ∈ t.access_list, i.WF

instance (t : TxEip2930) : Decidable t.WF := inferInstanceAs (Decidable (_ ∧ _))

/-- EIP-1559 payload well-formedness. -/
def TxEip1559.WF (t : TxEip1559) : Prop :=
  t.to_.WF ∧ BytesWF t.input ∧ ∀ i ∈ t.access_list, i.WF

instance (t : TxEip1559) : Decidable t.WF := inferInstanceAs (Decidable (_ ∧ _))

/-- EIP-4844 payload well-formedness. -/
def TxEip4844.WF (t : TxEip4844) : Prop :=
  AddrWF t.to_ ∧ BytesWF t.input ∧ (∀ i ∈ t.access_list, i.WF) ∧
    ∀ h ∈ t.blob_versioned_hashes, B256WF h

instance (t : TxEip4844) : Decidable t.WF := inferInstanceAs (Decidable (_ ∧ _))

/-- EIP-7702 payload well-formedness. -/
def TxEip7702.WF (t : TxEip7702) : Prop :=
  t.to_.WF ∧ BytesWF t.input ∧ (∀ i ∈ t.access_list, i.WF) ∧
    ∀ a ∈ t.authorization_list, a.WF

instance (t : TxEip7702) : Decidable t.WF := inferInstanceAs (Decidable (_ ∧ _))

/-- Envelope well-formedness: payload, signature and hash bounds. -/
def TxEnvelope.WF : TxEnvelope → Prop
  | .legacy s => s.tx.WF ∧ s.signature.WF ∧ B256WF s.hash
  | .eip2930 s => s.tx.WF ∧ s.signature.WF ∧ B256WF s.hash
  | .eip1559 s => s.tx.WF ∧ s.signature.WF ∧ B256WF s.hash
  | .eip4844 s => s.tx.WF ∧ s.signature.WF ∧ B256WF s.hash
  | .eip7702 s => s.tx.WF ∧ s.signature.WF ∧ B256WF s.hash

instance (e : TxEnvelope) : Decidable e.WF := by
  cases e <;> exact inferInstanceAs (Decidable (_ ∧ _))

/-- Transaction well-formedness: envelope plus metadata bounds. -/
def Transaction.WF (t : Transaction) : Prop :=
  t.tx.WF ∧ (∀ h ∈ t.block_hash, B256WF h) ∧ AddrWF t.from_

instance (t : Transaction) : Decidable t.WF := inferInstanceAs (Decidable (_ ∧ _))

/-! ### Helpers over serialized objects and fixtures -/

/-- Top-level keys of a JSON object. -/
def keysOf : Json → List String
  | .obj kvs => kvs.map Prod.fst
  | _ => []

/-- Top-level fields of a JSON object. -/
def objFields : Json → List (String × Json)
  | .obj kvs => kvs
  | _ => []

/-- The signature stored in a signed envelope. -/
def envelopeSignature : TxEnvelope → Signature
  | .legacy s => s.signature
  | .eip2930 s => s.signature
  | .eip1559 s => s.signature
  | .eip4844 s => s.signature
  | .eip7702 s => s.signature

/-- A JSON document is a canonical serialization when it is the
serializer's output on some well-formed transaction. -/
def CanonicalSerialization (j : Json) : Prop :=
  ∃ t : Transaction, t.WF ∧ encodeTransaction t = j

/-- The signed authorization of the source's EIP-7702 test fixture. -/
def exAuth : SignedAuthorization :=
  ⟨⟨1, 6, 1⟩,
   ⟨0x48b55bfa915ac795c431978d8a6a992b628d557da5ff759b307d495a36649353,
    0xefffd310ac743f371de3b9f7f9cb56c0b28ad43601b4ab949f53faa07bd2c804,
    .nonEip155 false⟩⟩

/-- The transaction of the source's `serde_transaction` test and of the
spec's end-to-end example: an EIP-7702 envelope whose signature stores the
EIP-155 `v` value 36. -/
def exTx7702 : Transaction :=
  { tx := .eip7702
      { tx :=
          { chain_id := 17, nonce := 2, gas_limit := 10, max_fee_per_gas := 21,
            max_priority_fee_per_gas := 22, to_ := .call 7, value := 8,
            access_list := [], authorization_list := [exAuth],
            input := [11, 12, 13] },
        signature := { r := 14, s := 14, parity := .eip155 36 },
        hash := 1 },
    block_hash := some 3, block_number := some 4, transaction_index := some 5,
    from_ := 6 }

/-- The same transaction with the signature storing a bare parity bit, as
in the source's `serde_transaction_with_parity_bit` test. -/
def exTx7702Parity : Transaction :=
  { tx := .eip7702
      { tx :=
          { chain_id := 17, nonce := 2, gas_limit := 10, max_fee_per_gas := 21,
            max_priority_fee_per_gas := 22, to_ := .call 7, value := 8,
            access_list := [], authorization_list := [exAuth],
            input := [11, 12, 13] },
        signature := { r := 14, s := 14, parity := .parity true },
        hash := 1 },
    block_hash := some 3, block_number := some 4, transaction_index := some 5,
    from_ := 6 }

/-- `exTx7702` with the block metadata stripped (pending form). -/
def exTx7702Pending : Transaction :=
  { tx := exTx7702.tx, block_hash := none, block_number := none,
    transaction_index := none, from_ := 6 }

/-- The spec's literal end-to-end JSON example, transcribed field by field
(the full-width form asserted by the source's `serde_transaction` test). -/
def exJson7702 : Json :=
  .obj [("type", .str "0x4"), ("chainId", .str "0x11"), ("nonce", .str "0x2"),
    ("gas", .str "0xa"), ("maxFeePerGas", .str "0x15"),
    ("maxPriorityFeePerGas", .str "0x16"),
    ("to", .str "0x0000000000000000000000000000000000000007"),
    ("value", .str "0x8"), ("accessList", .arr []),
    ("authorizationList", .arr [.obj [("chainId", .str "0x1"),
      ("address", .str "0x0000000000000000000000000000000000000006"),
      ("nonce", .str "0x1"),
      ("r", .str "0x48b55bfa915ac795c431978d8a6a992b628d557da5ff759b307d495a36649353"),
      ("s", .str "0xefffd310ac743f371de3b9f7f9cb56c0b28ad43601b4ab949f53faa07bd2c804"),
      ("v", .num 27)]]),
    ("input", .str "0x0b0c0d"), ("r", .str "0xe"), ("s", .str "0xe"),
    ("v", .str "0x24"),
    ("hash", .str "0x0000000000000000000000000000000000000000000000000000000000000001"),
    ("blockHash", .str "0x0000000000000000000000000000000000000000000000000000000000000003"),
    ("blockNumber", .str "0x4"), ("transactionIndex", .str "0x5"),
    ("from", .str "0x0000000000000000000000000000000000000006")]

/-- The byte-exact serialization asserted by the source's test. -/
def exLiteral7702 : String :=
  "\x7b\"type\":\"0x4\",\"chainId\":\"0x11\",\"nonce\":\"0x2\",\"gas\":\"0xa\",\"maxFeePerGas\":\"0x15\",\"maxPriorityFeePerGas\":\"0x16\",\"to\":\"0x0000000000000000000000000000000000000007\",\"value\":\"0x8\",\"accessList\":[],\"authorizationList\":[\x7b\"chainId\":\"0x1\",\"address\":\"0x0000000000000000000000000000000000000006\",\"nonce\":\"0x1\",\"r\":\"0x48b55bfa915ac795c431978d8a6a992b628d557da5ff759b307d495a36649353\",\"s\":\"0xefffd310ac743f371de3b9f7f9cb56c0b28ad43601b4ab949f53faa07bd2c804\",\"v\":27\x7d],\"input\":\"0x0b0c0d\",\"r\":\"0xe\",\"s\":\"0xe\",\"v\":\"0x24\",\"hash\":\"0x0000000000000000000000000000000000000000000000000000000000000001\",\"blockHash\":\"0x0000000000000000000000000000000000000000000000000000000000000003\",\"blockNumber\":\"0x4\",\"transactionIndex\":\"0x5\",\"from\":\"0x0000000000000000000000000000000000000006\"\x7d"

/-- The signed payload of the source's `serde_minimal_transaction` test. -/
def legacyMinSigned : Signed TxLegacy :=
  ⟨⟨none, 0, 0, 0, .create, 0, []⟩, ⟨14, 14, .eip155 36⟩, 1⟩

/-- The pending minimal legacy transaction of that test. -/
def exTxLegacyMin : Transaction :=
  ⟨.legacy legacyMinSigned, none, none, none, 0⟩

/-- An optional field serialized only when present. -/
def optField (k : String) (f : Nat → Json) : Option Nat → List (String × Json)
  | none => []
  | some v => [(k, f v)]

/-- The minimal legacy response with an arbitrary presence pattern for the
three block-metadata keys (present keys carry values, absent keys are
omitted entirely). -/
def mkLegacyMinimalJson (bh bn ti : Option Nat) : Json :=
  .obj ([("type", qtyJson 0), ("nonce", qtyJson 0), ("gasPrice", qtyJson 0),
    ("gas", qtyJson 0), ("value", qtyJson 0), ("input", bytesJson []),
    ("r", qtyJson 14), ("s", qtyJson 14), ("v", qtyJson 36),
    ("hash", b256Json 1)] ++
    optField "blockHash" b256Json bh ++ optField "blockNumber" qtyJson bn ++
    optField "transactionIndex" qtyJson ti ++ [("from", addrJson 0)])

/-- A response whose block metadata is mixed: `blockHash` present,
`blockNumber` and `transactionIndex` absent. -/
def exJsonMixed : Json := mkLegacyMinimalJson (some 3) none none

/-- What the mixed response decodes to. -/
def exTxMixed : Transaction :=
  ⟨.legacy legacyMinSigned, some 3, none, none, 0⟩

/-- The minimal legacy response with all three block-metadata keys omitted. -/
def exJsonNoMeta : Json := mkLegacyMinimalJson none none none

/-- The minimal legacy response without its required `from` key. -/
def exJsonNoFrom : Json :=
  .obj [("type", qtyJson 0), ("nonce", qtyJson 0), ("gasPrice", qtyJson 0),
    ("gas", qtyJson 0), ("value", qtyJson 0), ("input", bytesJson []),
    ("r", qtyJson 14), ("s", qtyJson 14), ("v", qtyJson 36),
    ("hash", b256Json 1)]

/-! ### Lazy provider call

Modelled from the spec: `prov_call.rs` (the `ProviderCall` future behind
`crates/provider/src/provider/mod.rs`) is not part of the excerpt. Per the
spec (§4.3, §5), a call builder is a single-shot lazy computation:
`Unresolved` holds the not-yet-issued operation, the first consumption
executes it exactly once and memoizes the outcome, later consumptions
observe the memoized outcome without re-issuing, and `map` composes a
transformation without forcing or duplicating execution. -/

/-- An abstract network operation with its (deterministic) outcome; the
outcome type can itself be a result-or-error type. -/
structure RpcOp (α : Type) where
  run : α

/-- The state of a lazy provider call. -/
inductive ProviderCall (α : Type) where
  | unresolved (op : RpcOp α)
  | resolved (value : α)

/-- One consumption step: the observed value, the successor state, and the
number of network executions this step issued. -/
def ProviderCall.poll {α : Type} : ProviderCall α → α × ProviderCall α × Nat
  | .unresolved op => (op.run, .resolved op.run, 1)
  | .resolved v => (v, .resolved v, 0)

/-- Total network executions issued over `n` consecutive consumptions. -/
def pollCount {α : Type} : ProviderCall α → Nat → Nat
  | _, 0 => 0
  | c, n + 1 => (c.poll).2.2 + pollCount (c.poll).2.1 n

/-- The `map` combinator: defers the transformation without forcing
resolution. -/
def ProviderCall.map {α β : Type} (f : α → β) : ProviderCall α → ProviderCall β
  | .unresolved op => .unresolved ⟨f op.run⟩
  | .resolved v => .resolved (f v)

theorem toHexAux_congr : ∀ f1 f2 n, n < f1 → n < f2 → toHexAux f1 n = toHexAux f2 n := by
  intro f1
  induction f1 with
  | zero => omega
  | succ f1 ih =>
    intro f2 n h1 h2
    cases f2 with
    | zero => omega
    | succ f2 =>
      simp only [toHexAux]
      split
      · rfl
      · next h =>
        rw [ih f2 (n / 16) (by omega) (by omega)]

/-- The recursion equation of `toHex`, independent of the fuel. -/
theorem toHex_eq (n : Nat) :
    toHex n = if n < 16 then [hexDigit n] else toHex (n / 16) ++ [hexDigit (n % 16)] := by
  show toHexAux (n + 1) n = _
  rw [toHexAux]
  split
  · rfl
  · next h =>
    rw [toHexAux_congr n (n / 16 + 1) (n / 16) (by omega) (by omega)]
    rfl

theorem hexVal_hexDigit {n : Nat} (h : n < 16) : hexVal (hexDigit n) = some n := by
  interval_cases n <;> rfl

theorem hexDigit_ne_zero {n : Nat} (h0 : 0 < n) (h : n < 16) : hexDigit n ≠ '0' := by
  interval_cases n <;> decide

theorem parseHexDigits_append (acc : Nat) (l1 l2 : List Char) :
    parseHexDigits acc (l1 ++ l2) =
      match parseHexDigits acc l1 with
      | some a => parseHexDigits a l2
      | none => none := by
  induction l1 generalizing acc with
  | nil => rfl
  | cons c cs ih =>
    simp only [List.cons_append, parseHexDigits]
    cases hexVal c with
    | none => rfl
    | some d => exact ih _

theorem toHex_ne_nil (n : Nat) : toHex n ≠ [] := by
  rw [toHex_eq]
  split
  · simp
  · simp

theorem parseHexDigits_toHex (n : Nat) :
    ∀ acc, parseHexDigits acc (toHex n) = some (acc * 16 ^ (toHex n).length + n) := by
  induction n using Nat.strong_induction_on with
  | _ n ih =>
    intro acc
    rw [toHex_eq]
    split
    · next h =>
      simp [parseHexDigits, hexVal_hexDigit h]
    · next h =>
      have hd : n / 16 < n := Nat.div_lt_self (by omega) (by omega)
      rw [parseHexDigits_append, ih (n / 16) hd acc]
      have h16 : n % 16 < 16 := Nat.mod_lt _ (by omega)
      simp only [parseHexDigits, hexVal_hexDigit h16, List.length_append,
        List.length_cons, List.length_nil]
      congr 1
      have := Nat.div_add_mod n 16
      ring_nf
      omega

theorem toHex_head_ne_zero {n : Nat} (h0 : 0 < n) :
    ∀ c cs, toHex n = c :: cs → c ≠ '0' := by
  induction n using Nat.strong_induction_on with
  | _ n ih =>
    intro c cs
    rw [toHex_eq]
    split
    · next h =>
      intro he
      cases he
      exact hexDigit_ne_zero h0 h
    · next h =>
      have hd : n / 16 < n := Nat.div_lt_self (by omega) (by omega)
      have hpos : 0 < n / 16 := Nat.div_pos (by omega) (by omega)
      cases hh : toHex (n / 16) with
      | nil => exact absurd hh (toHex_ne_nil _)
      | cons c0 cs0 =>
        intro he
        simp only [hh, List.cons_append] at he
        cases he
        exact ih _ hd hpos _ _ hh

theorem toHex_length_le {w n : Nat} (hw : 0 < w) (h : n < 16 ^ w) :
    (toHex n).length ≤ w := by
  induction n using Nat.strong_induction_on generalizing w with
  | _ n ih =>
    rw [toHex_eq]
    split
    · next hn =>
      simpa using hw
    · next hn =>
      have hd : n / 16 < n := Nat.div_lt_self (by omega) (by omega)
      have hw2 : 2 ≤ w := by
        by_contra hc
        have : w = 1 := by omega
        subst this
        simp at h
        omega
      have hdiv : n / 16 < 16 ^ (w - 1) := by
        have : n < 16 ^ (w - 1) * 16 := by
          have : 16 ^ (w - 1) * 16 = 16 ^ w := by
            rw [← Nat.pow_succ]
            congr 1
            omega
          omega
        omega
      have := ih _ hd (w := w - 1) (by omega) hdiv
      simp only [List.length_append, List.length_cons, List.length_nil]
      omega

theorem decodeQuantity_encodeQuantity (n : Nat) :
    decodeQuantity (encodeQuantity n) = some n := by
  rw [decodeQuantity, encodeQuantity]
  show decodeQuantityChars ('0' :: 'x' :: toHex n) = some n
  rcases Nat.eq_zero_or_pos n with h0 | h0
  · subst h0
    rfl
  · cases hh : toHex n with
    | nil => exact absurd hh (toHex_ne_nil _)
    | cons c cs =>
      have hc : c ≠ '0' := toHex_head_ne_zero h0 c cs hh
      have hp : parseHexDigits 0 (toHex n) = some n := by
        have := parseHexDigits_toHex n 0
        simpa using this
      rw [hh] at hp
      simp only [decodeQuantityChars]
      rw [if_neg hc]
      exact hp

theorem parseHexDigits_replicate_zero (k : Nat) :
    parseHexDigits 0 (List.replicate k '0') = some 0 := by
  induction k with
  | zero => rfl
  | succ k ih =>
    simpa [List.replicate_succ, parseHexDigits, hexVal] using ih

theorem padHex_length {w n : Nat} (hw : 0 < w) (h : n < 16 ^ w) :
    (padHex w n).length = w := by
  have := toHex_length_le hw h
  simp only [padHex, List.length_append, List.length_replicate]
  omega

theorem decodeFixed_encodeFixed {w n : Nat} (hw : 0 < w) (h : n < 16 ^ w) :
    decodeFixed w (encodeFixed w n) = some n := by
  rw [decodeFixed, encodeFixed]
  show decodeFixedChars w ('0' :: 'x' :: padHex w n) = some n
  simp only [decodeFixedChars, padHex_length hw h, if_pos rfl]
  rw [padHex, parseHexDigits_append, parseHexDigits_replicate_zero]
  simpa using parseHexDigits_toHex n 0

theorem parseBytes_bytesToHex {l : List Nat} (h : ∀ b ∈ l, b < 256) :
    parseBytes (bytesToHex l) = some l := by
  induction l with
  | nil => rfl
  | cons b bs ih =>
    have hb : b < 256 := h b (by simp)
    have hdiv : b / 16 < 16 := by omega
    have hmod : b % 16 < 16 := Nat.mod_lt _ (by omega)
    have hrest := ih (fun x hx => h x (by simp [hx]))
    cases hbs : bytesToHex bs with
    | nil =>
      simp only [bytesToHex, hbs, parseBytes, hexVal_hexDigit hdiv, hexVal_hexDigit hmod]
      rw [hbs] at hrest
      simp only [parseBytes] at hrest
      injection hrest with hr
      rw [← hr]
      have := Nat.div_add_mod b 16
      simp
      omega
    | cons x xs =>
      simp only [bytesToHex, hbs, parseBytes, hexVal_hexDigit hdiv, hexVal_hexDigit hmod]
      rw [hbs] at hrest
      rw [hrest]
      have := Nat.div_add_mod b 16
      simp
      omega

/-! ### Component round-trip lemmas -/

@[simp] theorem decodeQtyJson_qtyJson (n : Nat) : decodeQtyJson (qtyJson n) = some n := by
  simp [decodeQtyJson, qtyJson, decodeQuantity_encodeQuantity]

@[simp] theorem decodeAddrJson_addrJson {a : Nat} (h : AddrWF a) :
    decodeAddrJson (addrJson a) = some a := by
  simp [decodeAddrJson, addrJson]
  exact decodeFixed_encodeFixed (by omega) h

@[simp] theorem decodeB256Json_b256Json {x : Nat} (h : B256WF x) :
    decodeB256Json (b256Json x) = some x := by
  simp [decodeB256Json, b256Json]
  exact decodeFixed_encodeFixed (by omega) h

@[simp] theorem decodeBytesJson_bytesJson {l : List Nat} (h : BytesWF l) :
    decodeBytesJson (bytesJson l) = some l := by
  show decodeBytesChars (String.mk ('0' :: 'x' :: bytesToHex l)).data = some l
  show decodeBytesChars ('0' :: 'x' :: bytesToHex l) = some l
  simp only [decodeBytesChars]
  exact parseBytes_bytesToHex h

@[simp] theorem decodeParityV_parityVNum {p : Parity} (h : p.WF) :
    decodeParityV (parityVNum p) = some p := by
  cases p with
  | eip155 v =>
    simp only [Parity.WF] at h
    simp only [parityVNum, decodeParityV]
    rw [if_neg (by omega), if_neg (by omega), if_neg (by omega), if_neg (by omega),
      if_pos h]
  | nonEip155 b => cases b <;> rfl
  | parity b => cases b <;> rfl

@[simp] theorem decodeParityV_ge35 {v : Nat} (h : 35 ≤ v) :
    decodeParityV v = some (.eip155 v) := by
  simp only [decodeParityV]
  rw [if_neg (by omega), if_neg (by omega), if_neg (by omega), if_neg (by omega), if_pos h]

@[simp] theorem decodeParityV_of_WF {v : Nat} (h : Parity.WF (.eip155 v)) :
    decodeParityV v = some (.eip155 v) :=
  decodeParityV_ge35 h

@[simp] theorem decodeParityV_zero : decodeParityV 0 = some (.parity false) := rfl

@[simp] theorem decodeParityV_one : decodeParityV 1 = some (.parity true) := rfl

@[simp] theorem decodeParityV_27 : decodeParityV 27 = some (.nonEip155 false) := rfl

@[simp] theorem decodeParityV_28 : decodeParityV 28 = some (.nonEip155 true) := rfl

@[simp] theorem optValQty_optNull (o : Option Nat) :
    optValQty (some (optNull qtyJson o)) = some o := by
  cases o <;> simp [optValQty, optNull, qtyJson, decodeQtyJson, decodeQuantity_encodeQuantity]

@[simp] theorem optValB256_optNull {o : Option Nat} (h : ∀ x ∈ o, B256WF x) :
    optValB256 (some (optNull b256Json o)) = some o := by
  cases o with
  | none => rfl
  | some x =>
    have hx : B256WF x := h x rfl
    simp [optValB256, optNull, b256Json, decodeB256Json,
      decodeFixed_encodeFixed (by omega : 0 < 64) hx]

@[simp] theorem mapMOption_b256 {l : List Nat} (h : ∀ x ∈ l, B256WF x) :
    mapMOption decodeB256Json (l.map b256Json) = some l := by
  induction l with
  | nil => rfl
  | cons x xs ih =>
    have hx : B256WF x := h x (by simp)
    simp [mapMOption, decodeB256Json_b256Json hx, ih (fun y hy => h y (by simp [hy]))]

@[simp] theorem decodeB256Array_map {l : List Nat} (h : ∀ x ∈ l, B256WF x) :
    decodeB256Array (.arr (l.map b256Json)) = some l := by
  simp [decodeB256Array, mapMOption_b256 h]

@[simp] theorem decodeAccessItemJson_encodeAccessItem {i : AccessListItem} (h : i.WF) :
    decodeAccessItemJson (encodeAccessItem i) = some i := by
  obtain ⟨a, ks⟩ := i
  obtain ⟨ha, hks⟩ := h
  simp [encodeAccessItem, decodeAccessItemJson, lookupKV,
    decodeAddrJson_addrJson ha, decodeB256Array_map hks]

@[simp] theorem decodeAccessListJson_map {l : List AccessListItem}
    (h : ∀ i ∈ l, i.WF) :
    decodeAccessListJson (.arr (l.map encodeAccessItem)) = some l := by
  simp only [decodeAccessListJson]
  induction l with
  | nil => rfl
  | cons i is ih =>
    have hi : i.WF := h i (by simp)
    simp [mapMOption, decodeAccessItemJson_encodeAccessItem hi,
      ih (fun j hj => h j (by simp [hj]))]

@[simp] theorem decodeAuthJson_encodeAuth {a : SignedAuthorization} (h : a.WF) :
    decodeAuthJson (encodeAuth a) = some a := by
  obtain ⟨⟨c, ad, n⟩, ⟨rv, sv, p⟩⟩ := a
  obtain ⟨ha, hp⟩ := h
  simp [encodeAuth, decodeAuthJson, lookupKV, reqQty,
    decodeAddrJson_addrJson ha, decodeParityV_parityVNum hp]

@[simp] theorem optValQty_none : optValQty none = some none := rfl

@[simp] theorem optValQty_some_qty (n : Nat) :
    optValQty (some (qtyJson n)) = some (some n) := by
  simp [optValQty, qtyJson, decodeQtyJson, decodeQuantity_encodeQuantity]

@[simp] theorem optValB256_none : optValB256 none = some none := rfl

@[simp] theorem optValB256_some {x : Nat} (h : B256WF x) :
    optValB256 (some (b256Json x)) = some (some x) := by
  simp [optValB256, b256Json, decodeB256Json,
    decodeFixed_encodeFixed (by omega : 0 < 64) h]

@[simp] theorem decodeToKindVal_none : decodeToKindVal none = some .create := rfl

@[simp] theorem decodeToKindVal_addr {a : Nat} (h : AddrWF a) :
    decodeToKindVal (some (addrJson a)) = some (.call a) := by
  simp [decodeToKindVal, addrJson, decodeAddrJson,
    decodeFixed_encodeFixed (by omega : 0 < 40) h]

@[simp] theorem decodeAuthListJson_map {l : List SignedAuthorization}
    (h : ∀ a ∈ l, a.WF) :
    decodeAuthListJson (.arr (l.map encodeAuth)) = some l := by
  simp only [decodeAuthListJson]
  induction l with
  | nil => rfl
  | cons a as ih =>
    have ha : a.WF := h a (by simp)
    simp [mapMOption, decodeAuthJson_encodeAuth ha,
      ih (fun b hb => h b (by simp [hb]))]

/-! ### Round-trip -/

set_option maxHeartbeats 2000000 in
theorem decode_encode_legacy (p : TxLegacy) (sig : Signature) (hh : Nat)
    (bh bn ti : Option Nat) (fr : Nat)
    (hWF : Transaction.WF ⟨.legacy ⟨p, sig, hh⟩, bh, bn, ti, fr⟩) :
    decodeTransaction (encodeTransaction ⟨.legacy ⟨p, sig, hh⟩, bh, bn, ti, fr⟩) =
      some ⟨.legacy ⟨p, sig, hh⟩, bh, bn, ti, fr⟩ := by
  obtain ⟨ci, nn, gp, gl, tk, vv, inp⟩ := p
  obtain ⟨rr, sv, pp⟩ := sig
  obtain ⟨⟨⟨htk, hinp⟩, hsig, hhash⟩, hbh, hfr⟩ := hWF
  simp only [Signature.WF] at hsig
  dsimp only at htk hinp hhash hbh hfr
  cases ci <;> cases tk <;> rcases pp with v | b | b <;> try cases b
  all_goals try simp only [TxKind.WF] at htk
  all_goals
    simp (disch := assumption) [*, decodeTransaction, encodeTransaction,
      envelopeFields, optQtyField, toKindFields, sigFields, parityVNum,
      decodeEnvelope, decodeLegacy, reqQty, optQtyKV, optB256KV, decodeToKindKV,
      decodeSigKV, lookupKV, TxKind.WF]

set_option maxHeartbeats 2000000 in
theorem decode_encode_eip2930 (p : TxEip2930) (sig : Signature) (hh : Nat)
    (bh bn ti : Option Nat) (fr : Nat)
    (hWF : Transaction.WF ⟨.eip2930 ⟨p, sig, hh⟩, bh, bn, ti, fr⟩) :
    decodeTransaction (encodeTransaction ⟨.eip2930 ⟨p, sig, hh⟩, bh, bn, ti, fr⟩) =
      some ⟨.eip2930 ⟨p, sig, hh⟩, bh, bn, ti, fr⟩ := by
  obtain ⟨ci, nn, gp, gl, tk, vv, acl, inp⟩ := p
  obtain ⟨rr, sv, pp⟩ := sig
  obtain ⟨⟨⟨htk, hinp, hal⟩, hsig, hhash⟩, hbh, hfr⟩ := hWF
  simp only [Signature.WF] at hsig
  dsimp only at htk hinp hal hhash hbh hfr
  cases tk <;> rcases pp with v | b | b <;> try cases b
  all_goals try simp only [TxKind.WF] at htk
  all_goals
    simp (disch := assumption) [*, decodeTransaction, encodeTransaction,
      envelopeFields, optQtyField, toKindFields, sigFields, parityVNum,
      decodeEnvelope, decodeEip2930, reqQty, optQtyKV, optB256KV, decodeToKindKV,
      decodeSigKV, lookupKV, TxKind.WF]

set_option maxHeartbeats 2000000 in
theorem decode_encode_eip1559 (p : TxEip1559) (sig : Signature) (hh : Nat)
    (bh bn ti : Option Nat) (fr : Nat)
    (hWF : Transaction.WF ⟨.eip1559 ⟨p, sig, hh⟩, bh, bn, ti, fr⟩) :
    decodeTransaction (encodeTransaction ⟨.eip1559 ⟨p, sig, hh⟩, bh, bn, ti, fr⟩) =
      some ⟨.eip1559 ⟨p, sig, hh⟩, bh, bn, ti, fr⟩ := by
  obtain ⟨ci, nn, gl, mf, mp, tk, vv, acl, inp⟩ := p
  obtain ⟨rr, sv, pp⟩ := sig
  obtain ⟨⟨⟨htk, hinp, hal⟩, hsig, hhash⟩, hbh, hfr⟩ := hWF
  simp only [Signature.WF] at hsig
  dsimp only at htk hinp hal hhash hbh hfr
  cases tk <;> rcases pp with v | b | b <;> try cases b
  all_goals try simp only [TxKind.WF] at htk
  all_goals
    simp (disch := assumption) [*, decodeTransaction, encodeTransaction,
      envelopeFields, optQtyField, toKindFields, sigFields, parityVNum,
      decodeEnvelope, decodeEip1559, reqQty, optQtyKV, optB256KV, decodeToKindKV,
      decodeSigKV, lookupKV, TxKind.WF]

set_option maxHeartbeats 2000000 in
theorem decode_encode_eip4844 (p : TxEip4844) (sig : Signature) (hh : Nat)
    (bh bn ti : Option Nat) (fr : Nat)
    (hWF : Transaction.WF ⟨.eip4844 ⟨p, sig, hh⟩, bh, bn, ti, fr⟩) :
    decodeTransaction (encodeTransaction ⟨.eip4844 ⟨p, sig, hh⟩, bh, bn, ti, fr⟩) =
      some ⟨.eip4844 ⟨p, sig, hh⟩, bh, bn, ti, fr⟩ := by
  obtain ⟨ci, nn, gl, mf, mp, tk, vv, acl, bvh, mbf, inp⟩ := p
  obtain ⟨rr, sv, pp⟩ := sig
  obtain ⟨⟨⟨hto, hinp, hal, hbl⟩, hsig, hhash⟩, hbh, hfr⟩ := hWF
  simp only [Signature.WF] at hsig
  dsimp only at hto hinp hal hbl hhash hbh hfr
  rcases pp with v | b | b <;> try cases b
  all_goals
    simp (disch := assumption) [*, decodeTransaction, encodeTransaction,
      envelopeFields, optQtyField, toKindFields, sigFields, parityVNum,
      decodeEnvelope, decodeEip4844, reqQty, optQtyKV, optB256KV, decodeToKindKV,
      decodeSigKV, lookupKV]

set_option maxHeartbeats 2000000 in
theorem decode_encode_eip7702 (p : TxEip7702) (sig : Signature) (hh : Nat)
    (bh bn ti : Option Nat) (fr : Nat)
    (hWF : Transaction.WF ⟨.eip7702 ⟨p, sig, hh⟩, bh, bn, ti, fr⟩) :
    decodeTransaction (encodeTransaction ⟨.eip7702 ⟨p, sig, hh⟩, bh, bn, ti, fr⟩) =
      some ⟨.eip7702 ⟨p, sig, hh⟩, bh, bn, ti, fr⟩ := by
  obtain ⟨ci, nn, gl, mf, mp, tk, vv, acl, aul, inp⟩ := p
  obtain ⟨rr, sv, pp⟩ := sig
  obtain ⟨⟨⟨htk, hinp, hal, hau⟩, hsig, hhash⟩, hbh, hfr⟩ := hWF
  simp only [Signature.WF] at hsig
  dsimp only at htk hinp hal hau hhash hbh hfr
  cases tk <;> rcases pp with v | b | b <;> try cases b
  all_goals try simp only [TxKind.WF] at htk
  all_goals
    simp (disch := assumption) [*, decodeTransaction, encodeTransaction,
      envelopeFields, optQtyField, toKindFields, sigFields, parityVNum,
      decodeEnvelope, decodeEip7702, reqQty, optQtyKV, optB256KV, decodeToKindKV,
      decodeSigKV, lookupKV, TxKind.WF]

/-- Decoding the serializer's output returns the original transaction, for
every well-formed transaction of every envelope variant. -/
theorem decodeTransaction_encodeTransaction (t : Transaction) (h : t.WF) :
    decodeTransaction (encodeTransaction t) = some t := by
  obtain ⟨tx, bh, bn, ti, fr⟩ := t
  cases tx with
  | legacy s =>
    obtain ⟨p, sig, hh⟩ := s
    exact decode_encode_legacy p sig hh bh bn ti fr h
  | eip2930 s =>
    obtain ⟨p, sig, hh⟩ := s
    exact decode_encode_eip2930 p sig hh bh bn ti fr h
  | eip1559 s =>
    obtain ⟨p, sig, hh⟩ := s
    exact decode_encode_eip1559 p sig hh bh bn ti fr h
  | eip4844 s =>
    obtain ⟨p, sig, hh⟩ := s
    exact decode_encode_eip4844 p sig hh bh bn ti fr h
  | eip7702 s =>
    obtain ⟨p, sig, hh⟩ := s
    exact decode_encode_eip7702 p sig hh bh bn ti fr h

/-! ### Lemmas on the lazy provider call -/

theorem pollCount_resolved {α : Type} (v : α) (n : Nat) :
    pollCount (.resolved v) n = 0 := by
  induction n with
  | zero => rfl
  | succ n ih => simpa [pollCount, ProviderCall.poll] using ih

set_option maxRecDepth 100000

/-! ### The claims -/

/-- C1: for every well-formed transaction of every envelope variant,
decoding the serialized form returns the original transaction, and every
canonical serialization (an output of the serializer) decodes and
re-serializes to the identical document. -/
theorem roundtrip_C1 :
    (∀ t : Transaction, t.WF → decodeTransaction (encodeTransaction t) = some t) ∧
    (∀ j : Json, CanonicalSerialization j →
      ∃ t : Transaction, decodeTransaction j = some t ∧ encodeTransaction t = j) := by
  refine ⟨decodeTransaction_encodeTransaction, ?_⟩
  rintro j ⟨t, hWF, rfl⟩
  exact ⟨t, decodeTransaction_encodeTransaction t hWF, rfl⟩

/-- Witness for C1 at the EIP-7702 fixture of the source tests. -/
theorem roundtrip_C1_witness :
    exTx7702.WF ∧
    decodeTransaction (encodeTransaction exTx7702) = some exTx7702 ∧
    CanonicalSerialization (encodeTransaction exTx7702) ∧
    (∃ t : Transaction, decodeTransaction (encodeTransaction exTx7702) = some t ∧
      encodeTransaction t = encodeTransaction exTx7702) := by
  have hWF : exTx7702.WF := by decide
  exact ⟨hWF, roundtrip_C1.1 exTx7702 hWF, ⟨exTx7702, hWF, rfl⟩,
    roundtrip_C1.2 _ ⟨exTx7702, hWF, rfl⟩⟩

/-- C2 fails on the code: the two EIP-7702 fixtures of the source tests
differ only in how the signature stores its recovery identifier, yet one
serializes with a `v` field (so the parity-bit variant does not always
emit `yParity`) and the other with `yParity` — the choice is not a
function of the envelope variant. -/
theorem sig_key_C2_counterexample :
    ("v" ∈ keysOf (encodeTransaction exTx7702) ∧
     "yParity" ∉ keysOf (encodeTransaction exTx7702)) ∧
    ("yParity" ∈ keysOf (encodeTransaction exTx7702Parity) ∧
     "v" ∉ keysOf (encodeTransaction exTx7702Parity)) := by
  decide

/-- C2 amended: whether the serialized signature uses `v` or `yParity` is
determined solely by the representation of the recovery identifier stored
in the signature — a bare parity bit emits `yParity`, any legacy-style `v`
value emits `v` — independent of the envelope variant. -/
theorem sig_key_C2_amended (t : Transaction) :
    ("yParity" ∈ keysOf (encodeTransaction t) ↔
      ∃ b, (envelopeSignature t.tx).parity = .parity b) ∧
    ("v" ∈ keysOf (encodeTransaction t) ↔
      ¬∃ b, (envelopeSignature t.tx).parity = .parity b) := by
  obtain ⟨tx, bh, bn, ti, fr⟩ := t
  cases tx with
  | legacy s =>
    obtain ⟨⟨ci, nn, gp, gl, tk, vv, inp⟩, ⟨rr, sv, pp⟩, hh⟩ := s
    cases ci <;> cases tk <;> cases pp <;>
      simp [encodeTransaction, envelopeFields, optQtyField, toKindFields,
        sigFields, keysOf, envelopeSignature]
  | eip2930 s =>
    obtain ⟨⟨ci, nn, gp, gl, tk, vv, acl, inp⟩, ⟨rr, sv, pp⟩, hh⟩ := s
    cases tk <;> cases pp <;>
      simp [encodeTransaction, envelopeFields, optQtyField, toKindFields,
        sigFields, keysOf, envelopeSignature]
  | eip1559 s =>
    obtain ⟨⟨ci, nn, gl, mf, mp, tk, vv, acl, inp⟩, ⟨rr, sv, pp⟩, hh⟩ := s
    cases tk <;> cases pp <;>
      simp [encodeTransaction, envelopeFields, optQtyField, toKindFields,
        sigFields, keysOf, envelopeSignature]
  | eip4844 s =>
    obtain ⟨⟨ci, nn, gl, mf, mp, tk, vv, acl, bvh, mbf, inp⟩, ⟨rr, sv, pp⟩, hh⟩ := s
    cases pp <;>
      simp [encodeTransaction, envelopeFields, optQtyField, toKindFields,
        sigFields, keysOf, envelopeSignature]
  | eip7702 s =>
    obtain ⟨⟨ci, nn, gl, mf, mp, tk, vv, acl, aul, inp⟩, ⟨rr, sv, pp⟩, hh⟩ := s
    cases tk <;> cases pp <;>
      simp [encodeTransaction, envelopeFields, optQtyField, toKindFields,
        sigFields, keysOf, envelopeSignature]

/-- C3: `is_legacy_gas` returns true exactly on the Legacy and Eip2930
envelope variants. -/
theorem is_legacy_gas_C3 (t : Transaction) :
    t.is_legacy_gas = true ↔
      ((∃ s, t.tx = TxEnvelope.legacy s) ∨ (∃ s, t.tx = TxEnvelope.eip2930 s)) := by
  obtain ⟨tx, bh, bn, ti, fr⟩ := t
  cases tx <;> simp [Transaction.is_legacy_gas]

/-- C4: `into_request` populates exactly one gas-pricing family —
`gas_price` alone on legacy-gas envelopes, the max-fee pair alone on
fee-market-or-later envelopes, never both. -/
theorem into_request_pricing_C4 (t : Transaction) :
    (t.is_legacy_gas = true →
      (t.into_request).gas_price.isSome = true ∧
      (t.into_request).max_fee_per_gas = none) ∧
    (t.is_legacy_gas = false →
      (t.into_request).gas_price = none ∧
      (t.into_request).max_fee_per_gas.isSome = true) ∧
    ¬((t.into_request).gas_price.isSome = true ∧
      (t.into_request).max_fee_per_gas.isSome = true) := by
  obtain ⟨tx, bh, bn, ti, fr⟩ := t
  cases tx <;>
    simp [Transaction.is_legacy_gas, Transaction.into_request, txEnvelopeToRequest]

/-- Witness for C4 on the minimal legacy and the EIP-7702 fixtures. -/
theorem into_request_pricing_C4_witness :
    ((exTxLegacyMin.into_request).gas_price.isSome = true ∧
      (exTxLegacyMin.into_request).max_fee_per_gas = none) ∧
    ((exTx7702.into_request).gas_price = none ∧
      (exTx7702.into_request).max_fee_per_gas.isSome = true) :=
  ⟨(into_request_pricing_C4 exTxLegacyMin).1 (by decide),
   (into_request_pricing_C4 exTx7702).2.1 (by decide)⟩

/-- C5: the literal end-to-end JSON example renders byte-identically to
the fixture string, decodes to the EIP-7702 transaction, whose
`is_legacy_gas` is false and whose re-serialization renders to the same
bytes. -/
theorem end_to_end_C5 :
    Json.render exJson7702 = exLiteral7702 ∧
    decodeTransaction exJson7702 = some exTx7702 ∧
    (∃ s, exTx7702.tx = TxEnvelope.eip7702 s) ∧
    exTx7702.is_legacy_gas = false ∧
    Json.render (encodeTransaction exTx7702) = exLiteral7702 :=
  ⟨by decide, by decide, ⟨_, rfl⟩, by decide, by decide⟩

/-- C6 fails on the code: a response carrying `blockHash` but neither
`blockNumber` nor `transactionIndex` decodes successfully into a
transaction with mixed block-metadata presence. -/
theorem presence_C6_counterexample :
    decodeTransaction exJsonMixed = some exTxMixed ∧
    exTxMixed.block_hash = some 3 ∧ exTxMixed.block_number = none ∧
    exTxMixed.transaction_index = none :=
  ⟨by decide, rfl, rfl, rfl⟩

/-- C6 amended: the decoder does not enforce joint presence — every
combination of present and absent block-metadata keys decodes
successfully, each field independently; joint presence or absence is only
a protocol expectation on well-behaved nodes. -/
theorem presence_C6_amended (bh bn ti : Option Nat) (h : ∀ x ∈ bh, B256WF x) :
    decodeTransaction (mkLegacyMinimalJson bh bn ti) =
      some ⟨.legacy legacyMinSigned, bh, bn, ti, 0⟩ := by
  rcases bh with _ | v
  · cases bn <;> cases ti <;>
      simp [decodeTransaction, mkLegacyMinimalJson, optField, decodeEnvelope,
        decodeLegacy, reqQty, optQtyKV, optB256KV, decodeToKindKV, decodeSigKV,
        lookupKV, legacyMinSigned, decodeBytesJson_bytesJson (by decide : BytesWF []),
        decodeB256Json_b256Json (by decide : B256WF 1),
        decodeAddrJson_addrJson (by decide : AddrWF 0)]
  · have hv : B256WF v := h v rfl
    cases bn <;> cases ti <;>
      simp [decodeTransaction, mkLegacyMinimalJson, optField, decodeEnvelope,
        decodeLegacy, reqQty, optQtyKV, optB256KV, decodeToKindKV, decodeSigKV,
        lookupKV, legacyMinSigned, optValB256_some hv,
        decodeBytesJson_bytesJson (by decide : BytesWF []),
        decodeB256Json_b256Json (by decide : B256WF 1),
        decodeAddrJson_addrJson (by decide : AddrWF 0)]

/-- Witness for C6 amended at a mixed presence pattern. -/
theorem presence_C6_amended_witness :
    decodeTransaction (mkLegacyMinimalJson (some 3) none (some 5)) =
      some ⟨.legacy legacyMinSigned, some 3, none, some 5, 0⟩ :=
  presence_C6_amended (some 3) none (some 5) (by decide)

/-- C7: quantity encoding is minimal — zero is `"0x0"`, a nonzero value
never starts with a zero digit — and decoding rejects the non-minimal
`"0x00"`/`"0x01"` while accepting `"0x0"`/`"0x1"`. -/
theorem quantity_minimality_C7 :
    encodeQuantity 0 = "0x0" ∧
    (∀ n : Nat, 0 < n → ∀ c cs, (encodeQuantity n).data = '0' :: 'x' :: c :: cs →
      c ≠ '0') ∧
    decodeQuantity "0x00" = none ∧
    decodeQuantity "0x01" = none ∧
    decodeQuantity "0x0" = some 0 ∧
    decodeQuantity "0x1" = some 1 := by
  refine ⟨by decide, ?_, by decide, by decide, by decide, by decide⟩
  intro n hn c cs hdata
  have hd : ('0' :: 'x' :: toHex n : List Char) = '0' :: 'x' :: c :: cs := hdata
  have h2 : toHex n = c :: cs := by
    injection hd with h1 htl
    injection htl with h3 h4
  exact toHex_head_ne_zero hn c cs h2

/-- Witness for C7: the encoding of 1 starts with the digit `1`. -/
theorem quantity_minimality_C7_witness : ('1' : Char) ≠ '0' :=
  quantity_minimality_C7.2.1 1 (by decide) '1' [] (by decide)

/-- C8: converting a transaction to a request discards exactly the RPC
metadata — the output depends only on the inner envelope, carries no
sender and no sidecar, while the envelope fields are carried over — and
the envelope conversion returns the inner envelope unchanged. -/
theorem into_request_lossy_C8 :
    (∀ t : Transaction, txEnvelopeOfTransaction t = t.tx) ∧
    (∀ t : Transaction,
      (t.into_request).sidecar = none ∧ (t.into_request).from_ = none) ∧
    (∀ t1 t2 : Transaction, t1.tx = t2.tx → t1.into_request = t2.into_request) ∧
    (∀ t : Transaction,
      (t.into_request).nonce = some t.tx.nonce ∧
      (t.into_request).gas = some t.tx.gas_limit ∧
      (t.into_request).value = some t.tx.value ∧
      (t.into_request).input = some t.tx.input ∧
      (t.into_request).to_ = some t.tx.to_) := by
  refine ⟨fun t => rfl, fun t => ?_, fun t1 t2 h => ?_, fun t => ?_⟩
  · obtain ⟨tx, bh, bn, ti, fr⟩ := t
    cases tx <;> simp [Transaction.into_request, txEnvelopeToRequest]
  · simp only [Transaction.into_request, h]
  · obtain ⟨tx, bh, bn, ti, fr⟩ := t
    cases tx <;>
      simp [Transaction.into_request, txEnvelopeToRequest, TxEnvelope.nonce,
        TxEnvelope.gas_limit, TxEnvelope.value, TxEnvelope.input, TxEnvelope.to_]

/-- Witness for C8: the mined and pending EIP-7702 fixtures share an
envelope and convert to the same request. -/
theorem into_request_lossy_C8_witness :
    exTx7702.into_request = exTx7702Pending.into_request :=
  into_request_lossy_C8.2.2.1 exTx7702 exTx7702Pending rfl

/-- C9: a provider call executes its network operation at most once over
any number of consumptions; the first consumption of an unresolved call is
the one execution; mapping never changes how often the wrapped operation
runs; and a second consumption observes the memoized value, issuing no
execution. -/
theorem provider_call_once_C9 :
    (∀ (α : Type) (c : ProviderCall α) (n : Nat), pollCount c n ≤ 1) ∧
    (∀ (α : Type) (op : RpcOp α) (n : Nat),
      pollCount (.unresolved op) (n + 1) = 1) ∧
    (∀ (α β : Type) (f : α → β) (c : ProviderCall α) (n : Nat),
      pollCount (c.map f) n = pollCount c n) ∧
    (∀ (α : Type) (c : ProviderCall α),
      (((c.poll).2.1).poll).1 = (c.poll).1 ∧ (((c.poll).2.1).poll).2.2 = 0) := by
  refine ⟨?_, ?_, ?_, ?_⟩
  · intro α c n
    cases c with
    | unresolved op =>
      cases n with
      | zero => simp [pollCount]
      | succ n => simp [pollCount, ProviderCall.poll, pollCount_resolved]
    | resolved v => simp [pollCount_resolved]
  · intro α op n
    simp [pollCount, ProviderCall.poll, pollCount_resolved]
  · intro α β f c n
    cases c with
    | unresolved op =>
      cases n with
      | zero => rfl
      | succ n =>
        simp [pollCount, ProviderCall.map, ProviderCall.poll, pollCount_resolved]
    | resolved v =>
      simp [ProviderCall.map, pollCount_resolved]
  · intro α c
    cases c <;> simp [ProviderCall.poll]

/-- C10: a pending transaction serializes the three block-metadata keys as
explicit nulls; decoding accepts input omitting all three keys, defaulting
each to `None`; and decoding fails when `from` is missing. -/
theorem serde_defaults_C10 :
    (∀ t : Transaction, t.block_hash = none → t.block_number = none →
      t.transaction_index = none →
      ("blockHash", Json.null) ∈ objFields (encodeTransaction t) ∧
      ("blockNumber", Json.null) ∈ objFields (encodeTransaction t) ∧
      ("transactionIndex", Json.null) ∈ objFields (encodeTransaction t)) ∧
    decodeTransaction exJsonNoMeta = some exTxLegacyMin ∧
    decodeTransaction exJsonNoFrom = none := by
  refine ⟨?_, by decide, by decide⟩
  rintro ⟨tx, bh, bn, ti, fr⟩ h1 h2 h3
  dsimp only at h1 h2 h3
  subst h1
  subst h2
  subst h3
  simp [encodeTransaction, objFields, optNull]

/-- Witness for C10 at the pending minimal legacy fixture. -/
theorem serde_defaults_C10_witness :
    ("blockHash", Json.null) ∈ objFields (encodeTransaction exTxLegacyMin) ∧
    ("blockNumber", Json.null) ∈ objFields (encodeTransaction exTxLegacyMin) ∧
    ("transactionIndex", Json.null) ∈ objFields (encodeTransaction exTxLegacyMin) :=
  serde_defaults_C10.1 exTxLegacyMin rfl rfl rfl

end Alloy
